import Mathlib

/-!
Verification of the error-context capture utility, the structured exception
type, the logging bootstrap and the data-ingestion orchestration of an
educational machine-learning pipeline repository.

The Python sources are shallowly embedded: pure computations become Lean
functions, fallible computations return `Except PyError`, and the runtime
exception-inspection facility (`sys.exc_info()`) is passed in explicitly as
an `Option Traceback` value (`none` when no exception is being handled).
-/

/-- A Python runtime error value, reduced to what the embedded code
observes: the kind of error and its `str(...)` rendering. -/
inductive PyError where
  /-- `AttributeError`, as raised by an attribute access on `None`. -/
  | attributeError (msg : String)
  /-- Any failure raised by an external collaborator
  (CSV reading, folder creation, splitting, CSV writing). -/
  | opError (msg : String)
deriving DecidableEq, Repr

/-- `str(error)` for an embedded Python error value. -/
def PyError.toStr : PyError → String
  | .attributeError m => m
  | .opError m => m

/-- One traceback entry: the `tb_frame.f_code.co_filename` and `tb_lineno`
attributes of a Python traceback object. -/
structure FrameEntry where
  filename : String
  lineno : Nat
deriving DecidableEq, Repr

/-- A Python traceback as returned (non-`None`) by `sys.exc_info()`: a
non-empty chain of entries.  `head` is the entry `exc_tb` itself — the
frame the exception propagated to, i.e. the frame containing the handler —
and `next` is the `tb_next` chain, whose last entry (when non-empty) is the
innermost frame, the one that actually raised. -/
structure Traceback where
  head : FrameEntry
  next : List FrameEntry
deriving DecidableEq, Repr

/-- The innermost entry of a traceback: the original raise site. -/
def Traceback.innermost (tb : Traceback) : FrameEntry :=
  tb.next.getLastD tb.head

/-- The string built by `error_message_detail` once `exc_tb` is known to be
a real traceback object: `exc_tb.tb_frame.f_code.co_filename` and
`exc_tb.tb_lineno` are the `head` entry's fields, and the format template
is the source's literal
`"Error occurred in python script name [{0}] line number [{1}] error message [{2}]"`. -/
def error_message_detail_core (error : String) (tb : Traceback) : String :=
  "Error occurred in python script name [" ++ tb.head.filename ++
    "] line number [" ++ toString tb.head.lineno ++
    "] error message [" ++ error ++ "]"

/-- `error_message_detail(error, error_detail)` from `src/exception.py`.
`error` is `str(error)` of the underlying error; `exc_info` is the
traceback component of `error_detail.exc_info()` (`none` outside an active
exception-handling context).  When `exc_info` is `none`, the source's
`exc_tb.tb_frame` attribute access raises an `AttributeError`; otherwise
the formatted diagnostic string is returned. -/
def error_message_detail (error : String) (exc_info : Option Traceback) :
    Except PyError String :=
  match exc_info with
  | none => .error (.attributeError
      "NoneType object has no attribute tb_frame")
  | some tb => .ok (error_message_detail_core error tb)

/-- `CustomException` from `src/exception.py`: stores the message passed to
the base `Exception` constructor and the enriched message computed once at
construction time. -/
structure CustomException where
  base_message : String
  error_message : String
deriving DecidableEq, Repr

/-- `CustomException.__init__(error_message, error_detail)`: calls
`error_message_detail` eagerly and stores its result.  Construction fails
(the underlying `AttributeError` propagates) exactly when
`error_message_detail` fails. -/
def CustomException.init (error_message : String)
    (exc_info : Option Traceback) : Except PyError CustomException :=
  (error_message_detail error_message exc_info).map
    fun m => { base_message := error_message, error_message := m }

/-- `CustomException.__init__` in the only situation the repository uses
it: inside an `except` block, where the traceback is a real object.  Equal
to the `.ok` branch of `CustomException.init`. -/
def CustomException.initActive (error_message : String) (tb : Traceback) :
    CustomException :=
  { base_message := error_message,
    error_message := error_message_detail_core error_message tb }

/-- `CustomException.__str__`: returns the stored enriched message. -/
def CustomException.toStr (c : CustomException) : String :=
  c.error_message

/-- `os.path.join(a, b)` for the POSIX convention the spec's artifact
paths use (`a` non-empty, not slash-terminated, `b` relative). -/
def os_path_join (a b : String) : String :=
  a ++ "/" ++ b

/-- `DataIngestionConfig` from `src/components/data_ingestion.py`: the three
artifact paths, with the source's `os.path.join` defaults. -/
structure DataIngestionConfig where
  train_data_path : String := os_path_join "artifacts" "train.csv"
  test_data_path : String := os_path_join "artifacts" "test.csv"
  raw_data_path : String := os_path_join "artifacts" "data.csv"
deriving DecidableEq, Repr

/-- `DataIngestion.__init__`: stores a freshly built default config. -/
structure DataIngestion where
  ingestion_config : DataIngestionConfig := {}
deriving DecidableEq, Repr

/-- A pandas `DataFrame`, reduced to its rows of textual cells. -/
def Df : Type := List (List String)

instance : DecidableEq Df := by
  unfold Df
  infer_instance

/-- The external collaborators `initiate_data_ingestion` calls, each
modelled as an injectable result: `pd.read_csv`, `os.makedirs`,
`DataFrame.to_csv` (applied to a frame and a destination path) and
`sklearn.model_selection.train_test_split` (returning the train and test
frames).  Any of them may raise. -/
structure Collaborators where
  read_csv : Except PyError Df
  makedirs : Except PyError Unit
  to_csv : Df → String → Except PyError Unit
  split : Df → Except PyError (Df × Df)

/-- The `try` body of `DataIngestion.initiate_data_ingestion`: read the
CSV, create the artifact folder, write the raw copy, split, write the
train and test splits, and return the configured train/test paths.  The
first collaborator failure aborts the body with that error. -/
def ingestion_body (cfg : DataIngestionConfig) (c : Collaborators) :
    Except PyError (String × String) :=
  match c.read_csv with
  | .error e => .error e
  | .ok df =>
    match c.makedirs with
    | .error e => .error e
    | .ok _ =>
      match c.to_csv df cfg.raw_data_path with
      | .error e => .error e
      | .ok _ =>
        match c.split df with
        | .error e => .error e
        | .ok (train_set, test_set) =>
          match c.to_csv train_set cfg.train_data_path with
          | .error e => .error e
          | .ok _ =>
            match c.to_csv test_set cfg.test_data_path with
            | .error e => .error e
            | .ok _ => .ok (cfg.train_data_path, cfg.test_data_path)

/-- `DataIngestion.initiate_data_ingestion`: runs the body; on any failure
`e` the `except` clause raises `CustomException(e, sys)`, built inside the
active handler whose traceback `tb_of e` is necessarily a real object. -/
def DataIngestion.initiate_data_ingestion (self : DataIngestion)
    (c : Collaborators) (tb_of : PyError → Traceback) :
    Except CustomException (String × String) :=
  match ingestion_body self.ingestion_config c with
  | .ok r => .ok r
  | .error e => .error (CustomException.initActive e.toStr (tb_of e))

/-- Modelled from the spec: `sklearn.model_selection.train_test_split` is
an external collaborator (not part of this repository).  Per the spec it
deterministically partitions the rows under a fixed seed, the test
partition holding `ceil(test_size * n)` rows and the train partition the
rest; the seed selects the permutation.  The permutation is modelled as a
seed-indexed rotation. -/
def train_test_split (rows : List α) (test_size : ℚ) (random_state : Nat) :
    List α × List α :=
  let n := rows.length
  let n_test := (test_size * n).ceil.toNat
  let k := random_state % (n + 1)
  let shuffled := rows.drop k ++ rows.take k
  (shuffled.drop n_test, shuffled.take n_test)

/-- A moment of `datetime.now()`, reduced to the six fields the log-file
name uses. -/
structure PyDateTime where
  month : Nat
  day : Nat
  year : Nat
  hour : Nat
  minute : Nat
  second : Nat
deriving DecidableEq, Repr

/-- Two-digit zero padding, as `strftime` applies to `%m %d %H %M %S`. -/
def pad2 (n : Nat) : String :=
  if n < 10 then "0" ++ toString n else toString n

/-- `datetime.now().strftime('%m_%d_%Y_%H_%M_%S')` from `src/logger.py`
(for the four-digit years of interest, `%Y` prints the year as is). -/
def strftime_stamp (t : PyDateTime) : String :=
  pad2 t.month ++ "_" ++ pad2 t.day ++ "_" ++ toString t.year ++ "_" ++
    pad2 t.hour ++ "_" ++ pad2 t.minute ++ "_" ++ pad2 t.second

/-- `LOG_FILE` from `src/logger.py`, computed once at import (process
start) from the current time. -/
def LOG_FILE (now : PyDateTime) : String :=
  strftime_stamp now ++ ".log"

/-- `logs_path` from `src/logger.py`: `os.path.join(os.getcwd(), "logs")`. -/
def logs_path (cwd : String) : String :=
  os_path_join cwd "logs"

/-- `LOG_FILE_PATH` from `src/logger.py`. -/
def LOG_FILE_PATH (cwd : String) (now : PyDateTime) : String :=
  os_path_join (logs_path cwd) (LOG_FILE now)

/-- The `format` argument of `logging.basicConfig` in `src/logger.py`. -/
def LOG_FORMAT : String :=
  "[ %(asctime)s ] %(lineno)d %(name)s - %(levelname)s - %(message)s"

/-- A logging record, reduced to the five attributes `LOG_FORMAT`
interpolates. -/
structure LogRecord where
  asctime : String
  lineno : Nat
  name : String
  levelname : String
  msg : String
deriving DecidableEq, Repr

/-- Looks up one `%(key)…` attribute of a record, as Python %-style
mapping interpolation does for the keys `LOG_FORMAT` uses. -/
def fieldOf (r : LogRecord) (key : List Char) : List Char :=
  if key = "asctime".toList then r.asctime.toList
  else if key = "lineno".toList then (toString r.lineno).toList
  else if key = "name".toList then r.name.toList
  else if key = "levelname".toList then r.levelname.toList
  else if key = "message".toList then r.msg.toList
  else []

/-- Python %-style interpolation over a format string: each
`%(key)s` / `%(key)d` placeholder is replaced by the record attribute,
every other character is copied. -/
def pct_subst (r : LogRecord) : List Char → List Char
  | [] => []
  | '%' :: '(' :: rest =>
      let key := rest.takeWhile (fun c => c ≠ ')')
      let after := (rest.dropWhile (fun c => c ≠ ')')).drop 2
      fieldOf r key ++ pct_subst r after
  | c :: rest => c :: pct_subst r rest
termination_by l => l.length
decreasing_by
  · have h1 : (rest.dropWhile (fun c => c ≠ ')')).length ≤ rest.length :=
      (List.dropWhile_sublist _).length_le
    simp only [List.length_drop, List.length_cons]
    omega
  · simp only [List.length_cons]
    omega

/-- One line as the configured logger writes it: `LOG_FORMAT` interpolated
with the record's attributes. -/
def renderLine (r : LogRecord) : String :=
  String.mk (pct_subst r LOG_FORMAT.toList)

/-- The `logging.basicConfig(...)` call of `src/logger.py`: the single
process-wide sink.  `filemode` is the library's default `"a"` (append);
no rotating or deleting handler is configured. -/
structure BasicConfig where
  filename : String
  fmt : String
  filemode : String
  level : Nat
deriving DecidableEq, Repr

/-- `logging.INFO`. -/
def INFO : Nat := 20

/-- The configuration `src/logger.py` installs at import, as a function of
the process start time and working directory. -/
def logging_basicConfig (cwd : String) (now : PyDateTime) : BasicConfig :=
  { filename := LOG_FILE_PATH cwd now
    fmt := LOG_FORMAT
    filemode := "a"
    level := INFO }

/-- A handler-side traceback supplier for concrete runs: every caught
error is observed in the `except` clause of `initiate_data_ingestion`. -/
def sample_tb : PyError → Traceback :=
  fun _ => { head := { filename := "data_ingestion.py", lineno := 159 }, next := [] }

/-- A collaborator assignment whose `pd.read_csv` fails (the repository's
hard-coded dataset path is missing) and whose other collaborators
succeed. -/
def failing_collaborators : Collaborators :=
  { read_csv := .error (.opError "No such file or directory")
    makedirs := .ok ()
    to_csv := fun _ _ => .ok ()
    split := fun df => .ok (df, df) }

/-- A collaborator assignment on which every step succeeds. -/
def ok_collaborators : Collaborators :=
  { read_csv := .ok []
    makedirs := .ok ()
    to_csv := fun _ _ => .ok ()
    split := fun df => .ok (df, df) }

/-- Equality of embedded fallible results is decidable, so concrete runs
can be checked by evaluation. -/
instance exceptDecEq {ε α : Type} [DecidableEq ε] [DecidableEq α] :
    DecidableEq (Except ε α) := fun x y =>
  match x, y with
  | .error e, .error f =>
    if h : e = f then isTrue (by rw [h])
    else isFalse (by intro hh; cases hh; exact h rfl)
  | .error _, .ok _ => isFalse (by intro hh; cases hh)
  | .ok _, .error _ => isFalse (by intro hh; cases hh)
  | .ok a, .ok b =>
    if h : a = b then isTrue (by rw [h])
    else isFalse (by intro hh; cases hh; exact h rfl)

set_option maxRecDepth 8000

/-- Helper: a successful run of the ingestion body returns exactly the
configured train/test paths. -/
theorem ingestion_body_ok_eq (cfg : DataIngestionConfig) (c : Collaborators)
    (r : String × String) (h : ingestion_body cfg c = .ok r) :
    r = (cfg.train_data_path, cfg.test_data_path) := by
  unfold ingestion_body at h
  repeat' split at h
  all_goals (cases h; try rfl)

/-- Helper: partition sizes of the modelled splitter, for any row type,
test fraction and seed. -/
theorem tts_lengths {α : Type} (rows : List α) (ts : ℚ) (rs : Nat) :
    (train_test_split rows ts rs).1.length =
      rows.length - (ts * rows.length).ceil.toNat ∧
    (train_test_split rows ts rs).2.length =
      min ((ts * rows.length).ceil.toNat) rows.length := by
  unfold train_test_split
  have hk : rs % (rows.length + 1) ≤ rows.length :=
    Nat.lt_succ_iff.mp (Nat.mod_lt _ (Nat.succ_pos _))
  simp only [List.length_drop, List.length_take, List.length_append]
  omega

/-- C1 (counterexample): at the concrete context of a division by zero
caught at line 10 of `a.py`, `error_message_detail` does not return the
spec's template `Error occurred in script [...] ...` — the source's
template begins `Error occurred in python script name [...]`. -/
theorem error_message_detail_not_generic_script_template :
    error_message_detail "division by zero"
        (some { head := { filename := "a.py", lineno := 10 }, next := [] }) ≠
      .ok "Error occurred in script [a.py] line number [10] error message [division by zero]" := by
  decide

/-- C1 (amended): for every underlying error `E` and every active
exception-handling context whose traceback head reports file `F` and line
`L`, `error_message_detail` returns exactly
`Error occurred in python script name [F] line number [L] error message [E]`. -/
theorem error_message_detail_exact_template (E F : String) (L : Nat)
    (tb : Traceback) (h : tb.head = { filename := F, lineno := L }) :
    error_message_detail E (some tb) =
      .ok ("Error occurred in python script name [" ++ F ++
        "] line number [" ++ toString L ++ "] error message [" ++ E ++ "]") := by
  simp [error_message_detail, error_message_detail_core, h]

/-- C1 (witness): the amended template theorem evaluated at the
division-by-zero context of `a.py` line 10. -/
theorem error_message_detail_exact_template_witness :
    (Traceback.mk { filename := "a.py", lineno := 10 } []).head =
        { filename := "a.py", lineno := 10 } ∧
    error_message_detail "division by zero"
        (some { head := { filename := "a.py", lineno := 10 }, next := [] }) =
      .ok "Error occurred in python script name [a.py] line number [10] error message [division by zero]" :=
  ⟨rfl, error_message_detail_exact_template "division by zero" "a.py" 10
    { head := { filename := "a.py", lineno := 10 }, next := [] } rfl⟩

/-- C2 (counterexample): constructed outside an active exception-handling
context (`sys.exc_info()` reports no traceback), `CustomException`
construction does not succeed: the attribute access on `None` raises an
`AttributeError` instead of degrading to placeholder text. -/
theorem customException_init_raises_outside_handler :
    CustomException.init "boom" none =
        .error (.attributeError "NoneType object has no attribute tb_frame") ∧
    (CustomException.init "boom" none).isOk = false := by
  exact ⟨rfl, rfl⟩

/-- C2 (amended): inside an active exception-handling context
construction always succeeds, but outside one (`exc_info` is `none`) both
`error_message_detail` and `CustomException` construction raise an
`AttributeError` rather than producing placeholder location fields. -/
theorem customException_init_total_in_handler (m : String) :
    (∀ tb : Traceback, ∃ c, CustomException.init m (some tb) = .ok c) ∧
    CustomException.init m none =
      .error (.attributeError "NoneType object has no attribute tb_frame") :=
  ⟨fun _ => ⟨_, rfl⟩, rfl⟩

/-- C3: rendering a constructed `CustomException` returns the cached
message field, so two successive calls return identical values. -/
theorem customException_toStr_idempotent (e : String) (tb : Traceback)
    (c : CustomException) (_h : CustomException.init e (some tb) = .ok c) :
    c.toStr = c.error_message ∧ c.toStr = c.toStr :=
  ⟨rfl, rfl⟩

/-- C3 (witness): the idempotence theorem evaluated on the exception built
from a division by zero at `a.py` line 10. -/
theorem customException_toStr_idempotent_witness :
    (CustomException.initActive "division by zero"
        { head := { filename := "a.py", lineno := 10 }, next := [] }).toStr =
      (CustomException.initActive "division by zero"
        { head := { filename := "a.py", lineno := 10 }, next := [] }).error_message ∧
    (CustomException.initActive "division by zero"
        { head := { filename := "a.py", lineno := 10 }, next := [] }).toStr =
      (CustomException.initActive "division by zero"
        { head := { filename := "a.py", lineno := 10 }, next := [] }).toStr :=
  customException_toStr_idempotent "division by zero"
    { head := { filename := "a.py", lineno := 10 }, next := [] }
    (CustomException.initActive "division by zero"
      { head := { filename := "a.py", lineno := 10 }, next := [] }) rfl

/-- C4 (counterexample): for an error raised in `inner.py` line 2 and
caught in `outer.py` line 5, the traceback's innermost entry is the
original raise site `inner.py:2`, yet `error_message_detail` reports the
outermost entry `outer.py:5` and not the innermost one. -/
theorem error_message_detail_reports_outer_frame :
    error_message_detail "division by zero"
        (some { head := { filename := "outer.py", lineno := 5 },
                next := [{ filename := "inner.py", lineno := 2 }] }) =
      .ok (error_message_detail_core "division by zero"
        { head := { filename := "outer.py", lineno := 5 }, next := [] }) ∧
    Traceback.innermost
        { head := { filename := "outer.py", lineno := 5 },
          next := [{ filename := "inner.py", lineno := 2 }] } =
      { filename := "inner.py", lineno := 2 } ∧
    error_message_detail "division by zero"
        (some { head := { filename := "outer.py", lineno := 5 },
                next := [{ filename := "inner.py", lineno := 2 }] }) ≠
      .ok (error_message_detail_core "division by zero"
        { head := { filename := "inner.py", lineno := 2 }, next := [] }) := by
  refine ⟨rfl, rfl, ?_⟩
  decide

/-- C4 (amended): the location `error_message_detail` captures is the
traceback's outermost entry (the frame containing the handler): the
message depends only on the head entry, and that entry coincides with the
innermost raise site exactly when the error was raised directly in the
catching frame. -/
theorem error_message_detail_depends_only_on_head (e : String)
    (tb : Traceback) :
    error_message_detail e (some tb) =
      .ok (error_message_detail_core e { head := tb.head, next := [] }) ∧
    (tb.next = [] → tb.innermost = tb.head) := by
  refine ⟨rfl, fun h => ?_⟩
  simp [Traceback.innermost, h]

/-- C4 (witness): the amended theorem evaluated on a single-frame
traceback. -/
theorem error_message_detail_depends_only_on_head_witness :
    Traceback.innermost { head := { filename := "a.py", lineno := 10 }, next := [] } =
      { filename := "a.py", lineno := 10 } :=
  (error_message_detail_depends_only_on_head "division by zero"
    { head := { filename := "a.py", lineno := 10 }, next := [] }).2 rfl

/-- C5: wrapping a division-by-zero caught at `a.py` line 10 into a
`CustomException` succeeds, and the rendered message contains the
substrings `line number [10]` and `error message [division by zero]`. -/
theorem div_by_zero_scenario_substrings :
    ∃ c, CustomException.init "division by zero"
        (some { head := { filename := "a.py", lineno := 10 }, next := [] }) = .ok c ∧
      "line number [10]".toList <:+: c.toStr.toList ∧
      "error message [division by zero]".toList <:+: c.toStr.toList := by
  refine ⟨_, rfl, ?_, ?_⟩ <;> decide

/-- C6: under `test_size = 0.2` and `random_state = 42` (the arguments
ingestion passes), a 100-row input splits into an 80-row train set and a
20-row test set, and on any input with row count divisible by 5 the
partition is identical across repeated runs. -/
theorem ingestion_split_sizes_and_determinism {α : Type}
    (rows rows2 : List α) (h : rows.length = 100)
    (_h5 : rows2.length % 5 = 0) :
    (train_test_split rows (1/5) 42).1.length = 80 ∧
    (train_test_split rows (1/5) 42).2.length = 20 ∧
    train_test_split rows2 (1/5) 42 = train_test_split rows2 (1/5) 42 := by
  have hl := tts_lengths rows (1/5) 42
  rw [h] at hl
  have hc : ((1/5 : ℚ) * (100:ℕ)).ceil.toNat = 20 := by
    norm_num
    decide
  rw [hc] at hl
  exact ⟨by omega, by omega, rfl⟩

/-- C6 (witness): the split theorem evaluated on a 100-row and a 95-row
input. -/
theorem ingestion_split_sizes_and_determinism_witness :
    (train_test_split (List.replicate 100 (0:Nat)) (1/5) 42).1.length = 80 ∧
    (train_test_split (List.replicate 100 (0:Nat)) (1/5) 42).2.length = 20 ∧
    train_test_split (List.replicate 95 (0:Nat)) (1/5) 42 =
      train_test_split (List.replicate 95 (0:Nat)) (1/5) 42 :=
  ingestion_split_sizes_and_determinism
    (List.replicate 100 (0:Nat)) (List.replicate 95 (0:Nat)) (by simp) (by simp)

/-- C7: every failure of a collaborator inside `initiate_data_ingestion`
makes the method re-raise it wrapped as a `CustomException` built from the
failure's own text and the handler's traceback — the method never returns
normally after a failure and never swallows or retries it. -/
theorem ingestion_wraps_all_failures (self : DataIngestion)
    (c : Collaborators) (tb_of : PyError → Traceback) (e : PyError)
    (h : ingestion_body self.ingestion_config c = .error e) :
    self.initiate_data_ingestion c tb_of =
      .error (CustomException.initActive (PyError.toStr e) (tb_of e)) := by
  unfold DataIngestion.initiate_data_ingestion
  rw [h]

/-- C7 (witness): the wrapping theorem evaluated on a run whose
`pd.read_csv` collaborator fails. -/
theorem ingestion_wraps_all_failures_witness :
    DataIngestion.initiate_data_ingestion {} failing_collaborators sample_tb =
      .error (CustomException.initActive "No such file or directory"
        (sample_tb (.opError "No such file or directory"))) :=
  ingestion_wraps_all_failures {} failing_collaborators sample_tb
    (.opError "No such file or directory") rfl

/-- C8: the enriched message of a `CustomException` is computed exactly
once, at construction, and rendering afterwards only reads the stored
field: construction in a handler stores precisely the eagerly computed
detail string, and `__str__` of any constructed value is that stored
field, taking no further input from the exception-inspection facility. -/
theorem customException_message_eager_and_immutable (m : String)
    (tb : Traceback) :
    CustomException.init m (some tb) = .ok (CustomException.initActive m tb) ∧
    (CustomException.initActive m tb).error_message =
      error_message_detail_core m tb ∧
    (∀ c : CustomException, c.toStr = c.error_message) :=
  ⟨rfl, rfl, fun _ => rfl⟩

/-- C9: the logging bootstrap configures exactly one sink file per run at
`<cwd>/logs/<MM_DD_YYYY_HH_MM_SS>.log` (from the process-start time), in
append mode, and every line the configured format produces has the shape
`[ <timestamp> ] <line_number> <name> - <level> - <message>`. -/
theorem logger_file_path_and_line_format (cwd : String) (t : PyDateTime)
    (r : LogRecord) :
    (logging_basicConfig cwd t).filename =
      cwd ++ "/logs/" ++ pad2 t.month ++ "_" ++ pad2 t.day ++ "_" ++
        toString t.year ++ "_" ++ pad2 t.hour ++ "_" ++ pad2 t.minute ++
        "_" ++ pad2 t.second ++ ".log" ∧
    (logging_basicConfig cwd t).filemode = "a" ∧
    renderLine r = "[ " ++ r.asctime ++ " ] " ++ toString r.lineno ++ " " ++
      r.name ++ " - " ++ r.levelname ++ " - " ++ r.msg := by
  refine ⟨?_, rfl, ?_⟩
  · apply String.ext
    simp [logging_basicConfig, LOG_FILE_PATH, logs_path, LOG_FILE,
      os_path_join, strftime_stamp, String.data_append]
  · apply String.ext
    simp [renderLine, LOG_FORMAT, pct_subst, fieldOf, String.data_append,
      String.toList]

/-- C10: a successful run of `initiate_data_ingestion` on the default
configuration returns exactly the OS-joined pair
`("artifacts/train.csv", "artifacts/test.csv")`; the raw-data path
`artifacts/data.csv` is configured but is not among the returned paths. -/
theorem ingestion_returns_default_config_paths (c : Collaborators)
    (tb_of : PyError → Traceback) (r : String × String)
    (h : DataIngestion.initiate_data_ingestion {} c tb_of = .ok r) :
    r = (os_path_join "artifacts" "train.csv",
         os_path_join "artifacts" "test.csv") ∧
    r = ("artifacts/train.csv", "artifacts/test.csv") ∧
    ({} : DataIngestionConfig).raw_data_path = "artifacts/data.csv" ∧
    r.1 ≠ ({} : DataIngestionConfig).raw_data_path ∧
    r.2 ≠ ({} : DataIngestionConfig).raw_data_path := by
  unfold DataIngestion.initiate_data_ingestion at h
  cases hb : ingestion_body ({} : DataIngestion).ingestion_config c <;>
    rw [hb] at h
  case error e => cases h
  case ok r2 =>
    cases h
    have h2 := ingestion_body_ok_eq _ _ _ hb
    subst h2
    exact ⟨rfl, by decide, by decide, by decide, by decide⟩

/-- C10 (witness): the theorem evaluated on a run where every collaborator
succeeds. -/
theorem ingestion_returns_default_config_paths_witness :
    ("artifacts/train.csv", "artifacts/test.csv") =
      (os_path_join "artifacts" "train.csv",
       os_path_join "artifacts" "test.csv") ∧
    ("artifacts/train.csv", "artifacts/test.csv") =
      ("artifacts/train.csv", "artifacts/test.csv") ∧
    ({} : DataIngestionConfig).raw_data_path = "artifacts/data.csv" ∧
    ("artifacts/train.csv", "artifacts/test.csv").1 ≠
      ({} : DataIngestionConfig).raw_data_path ∧
    ("artifacts/train.csv", "artifacts/test.csv").2 ≠
      ({} : DataIngestionConfig).raw_data_path :=
  ingestion_returns_default_config_paths ok_collaborators sample_tb
    ("artifacts/train.csv", "artifacts/test.csv") rfl
